import Mathlib

/-!
Shallow embedding of the auto_pdf_chatbot conversation core:
`src/models.py`, `src/conversation_history.py`, `src/conversation_controller.py`,
`src/presentation_generator.py` (segment store part), `src/rag_engine.py` and the
task/streaming layer of `src/web_backend.py`.

Machine integers of the Python source are modelled as `Nat` where the source
only ever holds non-negative values (segment cursors, counts, budgets); Python
`max(0, n-1)` coincides with truncated `Nat` subtraction there.  Python slices
`l[i:]` and floor division `//` are modelled by explicit helpers.  Fallible
collaborators (vector search, file reads, the LLM call) are oracles returning
`Except`, and `try/except` blocks become matches on those results.
-/

namespace AutoPdf

/-! ### Data model (src/models.py) -/

/-- Mirrors `ConversationMode` of src/models.py. -/
inductive ConversationMode where
  | PRESENTATION
  | RAG
deriving DecidableEq, Repr

/-- Mirrors `PresentationSegment` of src/models.py (fields used by the core). -/
structure PresentationSegment where
  id : Nat
  text : String
  images : List String
  duration_seconds : Nat
  pdf_page : Option Nat
  pdf_name : Option String
deriving DecidableEq, Repr

/-- Mirrors `ConversationState` of src/models.py. -/
structure ConversationState where
  conversation_id : String
  mode : ConversationMode
  current_segment : Nat
  presentation_paused : Bool
  paused_at_segment : Option Nat
  paused_mid_segment : Bool
  pause_timestamp : Option Nat
  interrupted_segment_text : Option String
deriving DecidableEq, Repr

/-- Mirrors `BotResponse` of src/models.py (fields used by the core). -/
structure BotResponse where
  type : String
  text : String
  images : List String
  segment_id : Option Nat
  sources : Option (List String)
deriving DecidableEq, Repr

/-- Metadata values stored in history entries (Python dict values used by the code). -/
inductive MetaValue where
  | s (v : String)
  | n (v : Nat)
  | on (v : Option Nat)
  | os (v : Option String)
  | osl (v : Option (List String))
deriving DecidableEq, Repr

/-- One entry of a conversation history deque (the dict built in
`ConversationHistory.add_message`).  Timestamps (`datetime.now().isoformat()`,
which compares chronologically) are modelled as naturals. -/
structure HistoryEntry where
  role : String
  content : String
  type : String
  timestamp : Nat
  metadata : List (String × MetaValue)
deriving DecidableEq, Repr

/-! ### Python primitives -/

/-- Python list slice `l[i:]` for an integer `i` (negative indices count from the
end and clamp, so `l[-0:] = l[0:] = l`). -/
def pySliceFrom (i : Int) (l : List α) : List α :=
  if 0 ≤ i then l.drop i.toNat else l.drop ((l.length + i).toNat)

/-- Python `str.capitalize()`: first character upper-cased, the rest lower-cased. -/
def pyCapitalize (s : String) : String :=
  match s.data with
  | [] => ""
  | c :: cs => String.mk (c.toUpper :: cs.map Char.toLower)

/-! ### Segment store (src/presentation_generator.py) -/

/-- Segment store handle: the `self.segments` list of `PresentationGenerator`. -/
structure PresentationGenerator where
  segments : List PresentationSegment
deriving DecidableEq, Repr

/-- Mirrors `PresentationGenerator.get_segment` (src/presentation_generator.py,
lines 1480-1484): the bounds-checked list lookup.  Callers only pass
non-negative cursors, so the `0 <= segment_id` half of the guard is implicit in
the `Nat` index. -/
def PresentationGenerator.get_segment (g : PresentationGenerator) (segment_id : Nat) :
    Option PresentationSegment :=
  if segment_id < g.segments.length then g.segments[segment_id]? else none

/-- Mirrors `PresentationGenerator.get_total_segments`. -/
def PresentationGenerator.get_total_segments (g : PresentationGenerator) : Nat :=
  g.segments.length

/-- Content from which one segment is built (the per-segment data of the
construction loops in src/presentation_generator.py). -/
structure SegmentContent where
  text : String
  images : List String
  duration_seconds : Nat
  pdf_page : Option Nat
  pdf_name : Option String
deriving DecidableEq, Repr

/-- Mirrors the segment construction loops of `create_adaptive_presentation`
(lines 1213-1247) and `create_legacy_presentation` (lines 1390-1450): a
`segment_counter` starts at 0, each built segment gets `id = segment_counter`
and is appended, and the counter is incremented. -/
def build_segments_from (counter : Nat) : List SegmentContent → List PresentationSegment
  | [] => []
  | c :: cs =>
      { id := counter, text := c.text, images := c.images,
        duration_seconds := c.duration_seconds, pdf_page := c.pdf_page,
        pdf_name := c.pdf_name } :: build_segments_from (counter + 1) cs

/-- The full construction starting from `segment_counter = 0`. -/
def build_segments (cs : List SegmentContent) : List PresentationSegment :=
  build_segments_from 0 cs

/-! ### Conversation history (src/conversation_history.py)

The source keeps a dict `conversation_id -> deque(maxlen=max_history)`; the
deques of distinct ids are independent, so the embedding models one session's
deque as a list (newest last) plus the `max_history` bound. -/

/-- Mirrors `deque(maxlen=m).append(e)`: when the deque is full the oldest entry
is dropped from the left. -/
def deque_append (maxlen : Nat) (l : List HistoryEntry) (e : HistoryEntry) :
    List HistoryEntry :=
  let grown := l ++ [e]
  grown.drop (grown.length - maxlen)

/-- The importance test of `ConversationHistory.get_context` line 54:
`msg["type"] in ["question", "rag_answer"]`. -/
def is_important (e : HistoryEntry) : Bool :=
  e.type = "question" || e.type = "rag_answer"

/-- Timestamp comparison used by `context.sort(key=lambda x: x["timestamp"])`. -/
def ts_le (a b : HistoryEntry) : Bool :=
  a.timestamp ≤ b.timestamp

/-- Mirrors `ConversationHistory.get_context` (lines 38-63), including the exact
Python slice arithmetic: `messages[-max_messages*2:]`,
`important_messages[-max_messages//2:]` (which parses as `(-max_messages)//2`,
floor division), `regular_messages[-(max_messages//2):]`, the stable sort by
timestamp, and the final `context[-max_messages:]`. -/
def get_context (messages : List HistoryEntry) (max_messages : Nat) : List HistoryEntry :=
  if messages.length ≤ max_messages then messages
  else
    let window := pySliceFrom (-(max_messages * 2 : Int)) messages
    let important_messages := window.filter is_important
    let regular_messages := window.filter (fun m => !(is_important m))
    let context := pySliceFrom (Int.fdiv (-(max_messages : Int)) 2) important_messages ++
      pySliceFrom (-((max_messages / 2 : Nat) : Int)) regular_messages
    pySliceFrom (-(max_messages : Int)) (context.mergeSort ts_le)

/-- Mirrors `ConversationHistory.get_formatted_context` (lines 65-87). -/
def get_formatted_context (messages : List HistoryEntry) (max_messages : Nat) : String :=
  let context := get_context messages max_messages
  if context.isEmpty then ""
  else
    String.intercalate "\n\n" (context.map fun msg =>
      let role := pyCapitalize msg.role
      if msg.type = "presentation" then role ++ " (presenting): " ++ msg.content.take 200 ++ "..."
      else if msg.type = "question" then role ++ " (question): " ++ msg.content
      else if msg.type = "rag_answer" then role ++ " (answer): " ++ msg.content
      else role ++ ": " ++ msg.content)

/-! ### Conversation controller (src/conversation_controller.py) -/

/-- Mirrors `ConversationController.create_conversation` (lines 20-31): the
initial per-session state. -/
def initial_state (conversation_id : String) : ConversationState :=
  { conversation_id := conversation_id
    mode := ConversationMode.PRESENTATION
    current_segment := 0
    presentation_paused := false
    paused_at_segment := none
    paused_mid_segment := false
    pause_timestamp := none
    interrupted_segment_text := none }

/-- The history entry built by `add_message(cid, "user", text, message_type="question")`. -/
def question_entry (text : String) (now : Nat) : HistoryEntry :=
  { role := "user", content := text, type := "question", timestamp := now, metadata := [] }

/-- The history entry built for an assistant RAG answer
(`add_message(..., "assistant", response.text, "rag_answer", {"sources": ...})`). -/
def rag_answer_entry (response : BotResponse) (now : Nat) : HistoryEntry :=
  { role := "assistant", content := response.text, type := "rag_answer",
    timestamp := now, metadata := [("sources", MetaValue.osl response.sources)] }

/-- The history entry built for a delivered presentation segment
(`add_message(..., "assistant", segment.text, "presentation", {...})`). -/
def presentation_entry (segment : PresentationSegment) (now : Nat) : HistoryEntry :=
  { role := "assistant", content := segment.text, type := "presentation",
    timestamp := now,
    metadata := [("segment_id", MetaValue.n segment.id),
                 ("pdf_page", MetaValue.on segment.pdf_page),
                 ("pdf_name", MetaValue.os segment.pdf_name)] }

/-- Result of one `handle_message` call: the mutated state, the session's
history deque, the returned response (`none` when the Python function falls off
the end and returns `None`), and whether a delayed resume task was scheduled. -/
structure HandleResult where
  state : ConversationState
  history : List HistoryEntry
  response : Option BotResponse
  resume_scheduled : Bool
deriving DecidableEq, Repr

/-- Mirrors `ConversationController.handle_message` (lines 39-106) for an
existing conversation.  `rag` is the Answer Provider
(`rag_engine.answer_question`), a pure oracle from question and formatted
context to a response; `max_history` is the history bound and `now` the
timestamp the appended entries receive.  The interrupt branch fires on
`state.mode == PRESENTATION and message.text` (non-empty text); it captures the
currently displaying segment `max(0, current_segment - 1)`, stores its text
when the store has it, flips the pause bookkeeping, and only then consults the
Answer Provider. -/
def handle_message (gen : PresentationGenerator) (rag : String → String → BotResponse)
    (max_history now : Nat) (state : ConversationState) (history : List HistoryEntry)
    (text : String) : HandleResult :=
  let history1 := deque_append max_history history (question_entry text now)
  if state.mode = ConversationMode.PRESENTATION ∧ text ≠ "" then
    let currently_displaying_segment := max 0 (state.current_segment - 1)
    let state1 :=
      match gen.get_segment currently_displaying_segment with
      | some interrupted_segment =>
          { state with interrupted_segment_text := some interrupted_segment.text }
      | none => state
    let state2 := { state1 with
      mode := ConversationMode.RAG
      presentation_paused := true
      paused_at_segment := some currently_displaying_segment
      paused_mid_segment := true }
    let conversation_context := get_formatted_context history1 10
    let response := rag text conversation_context
    let history2 := deque_append max_history history1 (rag_answer_entry response now)
    let total_segments := gen.get_total_segments
    { state := state2, history := history2, response := some response,
      resume_scheduled := decide (currently_displaying_segment < total_segments - 1) }
  else if state.mode = ConversationMode.RAG then
    let conversation_context := get_formatted_context history1 10
    let response := rag text conversation_context
    let history2 := deque_append max_history history1 (rag_answer_entry response now)
    { state := state, history := history2, response := some response,
      resume_scheduled := false }
  else
    { state := state, history := history1, response := none, resume_scheduled := false }

/-- The closing message of `get_next_segment` (line 158). -/
def conclusion_text : String :=
  "That concludes our presentation! Feel free to ask any questions about the documents."

/-- Result of one `get_next_segment` call. -/
structure FetchResult where
  state : ConversationState
  history : List HistoryEntry
  response : Option BotResponse
deriving DecidableEq, Repr

/-- Mirrors `ConversationController.get_next_segment` (lines 121-172) for an
existing conversation: bail out untouched unless `mode == PRESENTATION` and not
paused; on a successful store fetch emit the segment and advance the cursor; on
an exhausted store switch to RAG and emit the one-time closing message. -/
def get_next_segment (gen : PresentationGenerator) (max_history now : Nat)
    (state : ConversationState) (history : List HistoryEntry) : FetchResult :=
  if state.mode ≠ ConversationMode.PRESENTATION ∨ state.presentation_paused then
    { state := state, history := history, response := none }
  else
    match gen.get_segment state.current_segment with
    | some segment =>
        let response : BotResponse :=
          { type := "presentation", text := segment.text, images := segment.images,
            segment_id := some segment.id, sources := none }
        { state := { state with current_segment := state.current_segment + 1 }
          history := deque_append max_history history (presentation_entry segment now)
          response := some response }
    | none =>
        { state := { state with mode := ConversationMode.RAG }
          history := deque_append max_history history
            { role := "assistant", content := conclusion_text, type := "presentation",
              timestamp := now, metadata := [] }
          response := some { type := "presentation", text := conclusion_text,
                             images := [], segment_id := none, sources := none } }

/-- Result of `get_next_segment` when the state lookup may miss. -/
structure OptFetchResult where
  state : Option ConversationState
  history : List HistoryEntry
  response : Option BotResponse
deriving DecidableEq, Repr

/-- Mirrors the head of `get_next_segment` (lines 122-124): a missing
conversation state short-circuits to no response before touching anything. -/
def get_next_segment_opt (gen : PresentationGenerator) (max_history now : Nat)
    (state : Option ConversationState) (history : List HistoryEntry) : OptFetchResult :=
  match state with
  | none => { state := none, history := history, response := none }
  | some s =>
      let r := get_next_segment gen max_history now s history
      { state := some r.state, history := r.history, response := r.response }

/-- Mirrors the body of `ConversationController._resume_presentation_after_delay`
(lines 174-227) after the sleep: its mutation of the conversation state.  The
guard is `state.presentation_paused and state.paused_at_segment is not None`.
In the finalize branch only `presentation_paused`, `paused_at_segment` and
`interrupted_segment_text` are reset — `paused_mid_segment` is left as it was.
In the replay branch a `presentation_resume` envelope is built into a local
variable that is never sent (lines 199-211), and the interruption fields are
cleared before the restart callback is invoked (lines 213-220). -/
def resume_after_delay (gen : PresentationGenerator) (state : ConversationState) :
    ConversationState :=
  match state.paused_at_segment with
  | some paused_at =>
      if state.presentation_paused then
        if paused_at ≥ gen.get_total_segments - 1 then
          { state with
            mode := ConversationMode.RAG
            presentation_paused := false
            paused_at_segment := none
            interrupted_segment_text := none }
        else
          { state with
            current_segment := paused_at
            mode := ConversationMode.PRESENTATION
            presentation_paused := false
            paused_at_segment := none
            interrupted_segment_text := none
            paused_mid_segment := false }
      else state
  | none => state

/-! ### Web backend task layer (src/web_backend.py)

`presentation_tasks` maps a conversation id to the task handle last stored for
it; a task is "done" once it finished or was cancelled.  The embedding tracks,
for one session, the registered handle and the list of still-running driver
tasks (identified by numbers).  `task.cancel()` on a not-done task removes it
from the running list; spawning appends a fresh task and registers it. -/

structure TaskRegistry where
  registered : Option Nat
  live : List Nat
deriving DecidableEq, Repr

/-- Mirrors the idiom `if cid in presentation_tasks: task = ...; if not task.done(): task.cancel()`. -/
def cancel_registered (r : TaskRegistry) : TaskRegistry :=
  match r.registered with
  | some t => if t ∈ r.live then { r with live := r.live.erase t } else r
  | none => r

/-- Mirrors `task = asyncio.create_task(stream_presentation(...)); presentation_tasks[cid] = task`. -/
def spawn_task (r : TaskRegistry) (fresh : Nat) : TaskRegistry :=
  { registered := some fresh, live := fresh :: r.live }

/-- Connection/task bookkeeping of the web backend for one session. -/
structure WebSession where
  connected : Bool
  tasks : TaskRegistry
deriving DecidableEq, Repr

/-- Result of `restart_presentation_streaming`. -/
structure RestartResult where
  state : ConversationState
  web : WebSession
  emitted : Option BotResponse
  success : Bool
deriving DecidableEq, Repr

/-- Mirrors `restart_presentation_streaming` (src/web_backend.py, lines 68-104):
when the session is connected, cancel any registered not-done task; if the
state still carries `interrupted_segment_text`, send a `presentation_resume`
envelope with that text and the images of the segment at `current_segment` and
spawn nothing; otherwise spawn a new `stream_presentation` driver task. -/
def restart_presentation_streaming (gen : PresentationGenerator)
    (state : ConversationState) (w : WebSession) (fresh : Nat) : RestartResult :=
  if w.connected then
    let tasks1 := cancel_registered w.tasks
    match state.interrupted_segment_text with
    | some captured =>
        match gen.get_segment state.current_segment with
        | some segment =>
            { state := { state with interrupted_segment_text := none }
              web := { w with tasks := tasks1 }
              emitted := some { type := "presentation_resume", text := captured,
                                images := segment.images, segment_id := some segment.id,
                                sources := none }
              success := true }
        | none =>
            { state := { state with interrupted_segment_text := none }
              web := { w with tasks := tasks1 }
              emitted := none, success := true }
    | none =>
        { state := state, web := { w with tasks := spawn_task tasks1 fresh }
          emitted := none, success := true }
  else
    { state := state, web := w, emitted := none, success := false }

/-- Task-registry effect of `handle_presentation_command` (src/web_backend.py,
lines 408-512), per command: `pause_presentation` cancels the registered task;
`resume_presentation` spawns a new driver without cancelling unless it is a
mid-segment resume (which spawns nothing); `segment_complete` spawns a new
driver without cancelling; `next_slide` cancels, then spawns unless the cursor
is at or past the end. -/
def handle_command_tasks (gen : PresentationGenerator) (state : ConversationState)
    (connected : Bool) (command : String) (r : TaskRegistry) (fresh : Nat) : TaskRegistry :=
  if command = "pause_presentation" then
    cancel_registered r
  else if command = "resume_presentation" then
    if state.paused_mid_segment ∧ state.paused_at_segment.isSome then r
    else if connected then spawn_task r fresh else r
  else if command = "segment_complete" then
    if connected then spawn_task r fresh else r
  else if command = "next_slide" then
    let r1 := cancel_registered r
    if state.current_segment ≥ gen.get_total_segments then r1
    else if connected then spawn_task r1 fresh else r1
  else r

/-! ### Answer provider (src/rag_engine.py) -/

/-- One hit returned by `vector_store.search_similar`. -/
structure PageHit where
  pdf_name : String
  page_number : Nat
  text : String
  full_page_image : Option String
deriving DecidableEq, Repr

/-- The fallible collaborators of `RAGEngine.answer_question`: vector search
(may raise), per-image file read plus base64 encoding (may raise, caught and
skipped), and the OpenAI chat call (may raise, caught and replaced by a
context fallback).  An `Except.error` models a raised exception. -/
structure RagOracles where
  search : String → Except String (List PageHit)
  read_image : String → Except String String
  chat : List (String × String) → Except String String

/-- The apologetic failure answer of `answer_question` (lines 99-106). -/
def apology_response : BotResponse :=
  { type := "rag_answer"
    text := "I apologize, but I\x27m having trouble processing your question. Could you please try rephrasing it?"
    images := [], segment_id := none, sources := some [] }

/-- The no-documents answer of `answer_question` (lines 28-34). -/
def no_info_response : BotResponse :=
  { type := "rag_answer"
    text := "I don\x27t have enough information in the uploaded documents to answer that question. Could you please upload some PDF files first?"
    images := [], segment_id := none, sources := some [] }

/-- The system prompt of `answer_question` (lines 58-63). -/
def rag_system_prompt : String :=
  "You are a helpful AI assistant that answers questions based on PDF documents. Use the provided context to give accurate, helpful answers. If the context doesn\x27t contain enough information, say so clearly."

/-- Mirrors `RAGEngine.answer_question` (src/rag_engine.py, lines 23-106).  The
whole body sits in a `try` whose `except` returns `apology_response`; the image
read and the OpenAI call have inner `except` handlers of their own, so only a
raise from the vector search reaches the outer handler.  The result is an
`Except` so that a propagated raw exception would be an `Except.error`. -/
def answer_question (o : RagOracles) (question conversation_context : String) :
    Except String BotResponse :=
  match o.search question with
  | Except.error _ => Except.ok apology_response
  | Except.ok related_pages =>
      if related_pages.isEmpty then Except.ok no_info_response
      else
        let step := fun (acc : List String × List String × List String) (page : PageHit) =>
          let context_parts := acc.1 ++
            ["From " ++ page.pdf_name ++ " page " ++ toString page.page_number ++ ": " ++
              page.text.take 500 ++ "..."]
          let sources := acc.2.1 ++
            [page.pdf_name ++ " - Page " ++ toString page.page_number]
          let images :=
            match page.full_page_image with
            | some path =>
                match o.read_image path with
                | Except.ok img_data => acc.2.2 ++ ["data:image/png;base64," ++ img_data]
                | Except.error _ => acc.2.2
            | none => acc.2.2
          (context_parts, sources, images)
        let folded := related_pages.foldl step ([], [], [])
        let knowledge_context := String.intercalate "\n\n" folded.1
        let user_content :=
          if conversation_context ≠ "" then
            "Conversation History:\n" ++ conversation_context ++ "\n\nDocument Context:\n" ++
              knowledge_context ++ "\n\nCurrent Question: " ++ question
          else
            "Document Context:\n" ++ knowledge_context ++ "\n\nQuestion: " ++ question
        let messages := [("system", rag_system_prompt), ("user", user_content)]
        let answer :=
          match o.chat messages with
          | Except.ok a => a
          | Except.error _ =>
              "Based on the documents, here\x27s what I found: " ++
                knowledge_context.take 200 ++
                "... Please let me know if you need more specific information."
        Except.ok { type := "rag_answer", text := answer, images := folded.2.2.take 2,
                    segment_id := none, sources := some folded.2.1 }

/-- Iterated driver fetches: the state/history evolution after `k` calls of
`get_next_segment`, as performed by the `stream_presentation` loop of
src/web_backend.py, which keeps fetching while the state allows it. -/
def fetch_iter (gen : PresentationGenerator) (max_history now : Nat) :
    Nat → ConversationState → List HistoryEntry → ConversationState × List HistoryEntry
  | 0, s, h => (s, h)
  | k + 1, s, h =>
      let p := fetch_iter gen max_history now k s h
      let r := get_next_segment gen max_history now p.1 p.2
      (r.state, r.history)

/-- The state of a fresh session after `k` successful driver fetches. -/
def init_cursor (cid : String) (k : Nat) : ConversationState :=
  { initial_state cid with current_segment := k }

/-- The state of a fresh session after playback exhausted a `total`-segment
store: cursor parked at `total`, mode permanently RAG. -/
def exhausted_state (cid : String) (total : Nat) : ConversationState :=
  { initial_state cid with
    current_segment := total
    mode := ConversationMode.RAG }

/-- Chronological order of history entries: pairwise non-decreasing timestamps. -/
def chronological (l : List HistoryEntry) : Prop :=
  List.Pairwise (fun a c => a.timestamp ≤ c.timestamp) l

/-- A plain (non-important) history entry for concrete evaluations. -/
def plain_entry : HistoryEntry :=
  HistoryEntry.mk "user" "hi" "text" 0 []

/-- A two-segment store used to evaluate the theorems on concrete inputs. -/
def two_seg_gen : PresentationGenerator :=
  PresentationGenerator.mk (build_segments
    [SegmentContent.mk "seg zero" [] 8 none none,
     SegmentContent.mk "seg one" [] 8 none none])

/-- The first segment of `two_seg_gen` as built by the construction loop. -/
def seg_zero : PresentationSegment :=
  PresentationSegment.mk 0 "seg zero" [] 8 none none

/-- A trivial Answer Provider oracle for concrete evaluations. -/
def const_rag : String → String → BotResponse := fun _ _ => apology_response

/-- The state produced by interrupting `two_seg_gen` playback while segment 1
was displaying (`current_segment = 2`): segment 1 is the last one. -/
def paused_at_last : ConversationState :=
  { conversation_id := "c"
    mode := ConversationMode.RAG
    current_segment := 2
    presentation_paused := true
    paused_at_segment := some 1
    paused_mid_segment := true
    pause_timestamp := none
    interrupted_segment_text := some "seg one" }

/-- The state produced by interrupting `two_seg_gen` playback while segment 0
was displaying (`current_segment = 1`): one more segment remains. -/
def paused_at_first : ConversationState :=
  { conversation_id := "c"
    mode := ConversationMode.RAG
    current_segment := 1
    presentation_paused := true
    paused_at_segment := some 0
    paused_mid_segment := true
    pause_timestamp := none
    interrupted_segment_text := some "seg zero" }

/-- A retrieval hit and an oracle set where only the LLM call fails: the vector
search succeeds with one page and the chat call raises. -/
def llm_down_oracles : RagOracles :=
  { search := fun _ => Except.ok [PageHit.mk "doc.pdf" 3 "body text" none]
    read_image := fun _ => Except.error "io"
    chat := fun _ => Except.error "api down" }

/-! ### Helper lemmas -/

/-- One driver fetch in active playback with a segment available: emits the
segment and advances the cursor. -/
theorem get_next_segment_step (gen : PresentationGenerator) (max_history now : Nat)
    (s : ConversationState) (h : List HistoryEntry) (seg : PresentationSegment)
    (hm : s.mode = ConversationMode.PRESENTATION) (hp : s.presentation_paused = false)
    (hseg : gen.get_segment s.current_segment = some seg) :
    get_next_segment gen max_history now s h = { state := { s with current_segment := s.current_segment + 1 }, history := deque_append max_history h (presentation_entry seg now), response := some (BotResponse.mk "presentation" seg.text seg.images (some seg.id) none) } := by
  unfold get_next_segment
  rw [if_neg (by simp [hm, hp]), hseg]

/-- One driver fetch in active playback with the store exhausted: switches the
mode to RAG and emits the one-time closing message. -/
theorem get_next_segment_exhausted (gen : PresentationGenerator) (max_history now : Nat)
    (s : ConversationState) (h : List HistoryEntry)
    (hm : s.mode = ConversationMode.PRESENTATION) (hp : s.presentation_paused = false)
    (hseg : gen.get_segment s.current_segment = none) :
    get_next_segment gen max_history now s h = { state := { s with mode := ConversationMode.RAG }, history := deque_append max_history h (HistoryEntry.mk "assistant" conclusion_text "presentation" now []), response := some (BotResponse.mk "presentation" conclusion_text [] none none) } := by
  unfold get_next_segment
  rw [if_neg (by simp [hm, hp]), hseg]

theorem get_segment_of_lt (gen : PresentationGenerator) (k : Nat)
    (hk : k < gen.segments.length) :
    gen.get_segment k = some (gen.segments.get ⟨k, hk⟩) := by
  unfold PresentationGenerator.get_segment
  rw [if_pos hk]
  simp [List.getElem?_eq_getElem, hk]

theorem get_segment_of_ge (gen : PresentationGenerator) (k : Nat)
    (hk : ¬ k < gen.segments.length) :
    gen.get_segment k = none := by
  unfold PresentationGenerator.get_segment
  rw [if_neg hk]

theorem fetch_iter_cursor (gen : PresentationGenerator) (max_history now : Nat)
    (cid : String) :
    ∀ (k : Nat) (h : List HistoryEntry), k ≤ gen.get_total_segments →
      (fetch_iter gen max_history now k (initial_state cid) h).1 = init_cursor cid k := by
  intro k
  induction k with
  | zero => intro h hk; rfl
  | succ k ih =>
      intro h hk
      have hk' : k < gen.get_total_segments := by omega
      simp only [fetch_iter]
      rw [ih h (by omega)]
      rw [get_next_segment_step gen max_history now (init_cursor cid k) _
        (gen.segments.get ⟨k, hk'⟩) rfl rfl
        (get_segment_of_lt gen k hk')]
      rfl

theorem fetch_iter_exhausted (gen : PresentationGenerator) (max_history now : Nat)
    (cid : String) :
    ∀ (j : Nat) (h : List HistoryEntry),
      (fetch_iter gen max_history now (gen.get_total_segments + 1 + j) (initial_state cid) h).1 =
        exhausted_state cid gen.get_total_segments := by
  intro j
  induction j with
  | zero =>
      intro h
      simp only [fetch_iter]
      rw [fetch_iter_cursor gen max_history now cid gen.get_total_segments h (by omega)]
      rw [get_next_segment_exhausted gen max_history now (init_cursor cid gen.get_total_segments)
        _ rfl rfl (get_segment_of_ge gen gen.get_total_segments (by
          simp [init_cursor, initial_state, PresentationGenerator.get_total_segments]))]
      rfl
  | succ j ih =>
      intro h
      have harith : gen.get_total_segments + 1 + (j + 1) =
          (gen.get_total_segments + 1 + j) + 1 := by omega
      rw [harith]
      simp only [fetch_iter]
      rw [ih h]
      unfold get_next_segment
      rw [if_pos (Or.inl (by simp [exhausted_state, initial_state]))]

theorem build_segments_from_length (cs : List SegmentContent) :
    ∀ c, (build_segments_from c cs).length = cs.length := by
  induction cs with
  | nil => intro c; rfl
  | cons x xs ih => intro c; simp [build_segments_from, ih]

theorem build_segments_from_id (cs : List SegmentContent) :
    ∀ (c i : Nat) (h : i < (build_segments_from c cs).length),
    ((build_segments_from c cs).get ⟨i, h⟩).id = c + i := by
  induction cs with
  | nil => intro c i h; simp [build_segments_from] at h
  | cons x xs ih =>
      intro c i h
      cases i with
      | zero => simp [build_segments_from]
      | succ j =>
          have hj : j < (build_segments_from (c + 1) xs).length := by
            simpa [build_segments_from] using h
          have := ih (c + 1) j hj
          simpa [build_segments_from, Nat.add_assoc, Nat.add_comm 1 j] using this

theorem build_segments_id (cs : List SegmentContent) (i : Nat) (seg : PresentationSegment)
    (h : (PresentationGenerator.mk (build_segments cs)).get_segment i = some seg) :
    seg.id = i := by
  unfold PresentationGenerator.get_segment at h
  by_cases hi : i < (build_segments cs).length
  · rw [if_pos hi] at h
    have hg : (build_segments cs)[i]? = some ((build_segments cs).get ⟨i, hi⟩) := by
      simp [List.getElem?_eq_getElem, hi]
    rw [hg] at h
    have hseg : seg = (build_segments cs).get ⟨i, hi⟩ := by
      exact (Option.some_injective _ h).symm
    rw [hseg]
    simpa using build_segments_from_id cs 0 i hi
  · rw [if_neg hi] at h
    exact absurd h (by simp)

theorem pySliceFrom_neg (k : Nat) (hk : 0 < k) (l : List α) :
    pySliceFrom (-(k : Int)) l = l.drop (l.length - k) := by
  unfold pySliceFrom
  rw [if_neg (by omega)]
  congr 1
  omega

theorem pySliceFrom_neg_length (k : Nat) (hk : 0 < k) (l : List α) :
    (pySliceFrom (-(k : Int)) l).length ≤ k := by
  rw [pySliceFrom_neg k hk]
  simp only [List.length_drop]
  omega

theorem pySliceFrom_neg_all (k : Nat) (hk : 0 < k) (l : List α) (hl : l.length ≤ k) :
    pySliceFrom (-(k : Int)) l = l := by
  rw [pySliceFrom_neg k hk]
  have : l.length - k = 0 := by omega
  simp [this]

theorem neg_fdiv_two (b : Nat) : Int.fdiv (-(b : Int)) 2 = -(((b + 1) / 2 : Nat) : Int) := by
  rw [Int.fdiv_eq_ediv _ (by omega)]
  omega

/-- Deque appends keep the per-session history within `maxlen`. -/
theorem deque_append_length (maxlen : Nat) (l : List HistoryEntry) (e : HistoryEntry) :
    (deque_append maxlen l e).length ≤ maxlen := by
  unfold deque_append
  simp only [List.length_drop, List.length_append, List.length_cons, List.length_nil]
  omega

theorem foldl_deque_length (maxlen : Nat) :
    ∀ (es : List HistoryEntry) (acc : List HistoryEntry), acc.length ≤ maxlen →
      (es.foldl (fun l e => deque_append maxlen l e) acc).length ≤ maxlen := by
  intro es
  induction es with
  | nil => intro acc h; simpa using h
  | cons e es ih =>
      intro acc h
      exact ih (deque_append maxlen acc e) (deque_append_length maxlen acc e)

/-! ### Claim theorems -/

/-- C6: a driver fetch against a missing state, or against a state whose mode is
not PRESENTATION or that is paused, yields no response and mutates nothing: the
cursor and every other state field stay exactly where the controller set them,
and the history is untouched. -/
theorem driver_fetch_idle_is_pure (gen : PresentationGenerator) (max_history now : Nat)
    (state : ConversationState) (history : List HistoryEntry) :
    get_next_segment_opt gen max_history now none history =
      { state := none, history := history, response := none } ∧
    (state.mode ≠ ConversationMode.PRESENTATION ∨ state.presentation_paused = true →
      get_next_segment gen max_history now state history =
        { state := state, history := history, response := none }) := by
  constructor
  · rfl
  · intro h
    unfold get_next_segment
    rw [if_pos]
    rcases h with h | h
    · exact Or.inl h
    · exact Or.inr (by simp [h])

/-- C6 witness: a paused state is left untouched by a fetch. -/
theorem driver_fetch_idle_is_pure_witness :
    get_next_segment (PresentationGenerator.mk []) 20 0
        { initial_state "c" with presentation_paused := true } [] =
      { state := { initial_state "c" with presentation_paused := true },
        history := [], response := none } :=
  (driver_fetch_idle_is_pure (PresentationGenerator.mk []) 20 0
      { initial_state "c" with presentation_paused := true } []).2 (Or.inr rfl)

/-- C8: however entries are appended, the stored history never exceeds
`max_history` entries, and an append to a full history drops exactly the oldest
entry (FIFO). -/
theorem history_bounded_fifo (max_history : Nat) :
    (∀ es : List HistoryEntry,
      (es.foldl (fun l e => deque_append max_history l e) []).length ≤ max_history) ∧
    (∀ (l : List HistoryEntry) (e : HistoryEntry), 0 < max_history →
      l.length = max_history → deque_append max_history l e = l.drop 1 ++ [e]) := by
  constructor
  · intro es
    exact foldl_deque_length max_history es [] (by simp)
  · intro l e hpos hfull
    unfold deque_append
    simp only [List.length_append, List.length_cons, List.length_nil, hfull]
    have h1 : max_history + 1 - max_history = 1 := by omega
    rw [h1, List.drop_append_of_le_length (by omega)]

/-- C8 witness: with `max_history = 2`, appending three entries keeps two, and
appending to a full deque evicts the oldest. -/
theorem history_bounded_fifo_witness :
    (([question_entry "a" 0, question_entry "b" 1, question_entry "c" 2].foldl
        (fun l e => deque_append 2 l e) []).length ≤ 2) ∧
    deque_append 2 [question_entry "a" 0, question_entry "b" 1] (question_entry "c" 2) =
      [question_entry "b" 1, question_entry "c" 2] := by
  refine ⟨(history_bounded_fifo 2).1 _, ?_⟩
  have h := (history_bounded_fifo 2).2 [question_entry "a" 0, question_entry "b" 1]
    (question_entry "c" 2) (by omega) rfl
  simpa using h

/-- C10: in PRESENTATION mode an empty inbound message produces no response and
changes no state field, while the empty message is still appended to the
history as a question entry (through the bounded deque). -/
theorem empty_message_noop (gen : PresentationGenerator) (rag : String → String → BotResponse)
    (max_history now : Nat) (state : ConversationState) (history : List HistoryEntry)
    (hm : state.mode = ConversationMode.PRESENTATION)
    (hp : state.presentation_paused = false) :
    (handle_message gen rag max_history now state history "").response = none ∧
    (handle_message gen rag max_history now state history "").state = state ∧
    (handle_message gen rag max_history now state history "").history =
      deque_append max_history history (question_entry "" now) ∧
    (question_entry "" now).role = "user" ∧ (question_entry "" now).type = "question" := by
  unfold handle_message
  rw [if_neg (by simp), if_neg (by simp [hm])]
  exact ⟨rfl, rfl, rfl, rfl, rfl⟩

/-- C10 witness: evaluated on a fresh session. -/
theorem empty_message_noop_witness :
    (handle_message (PresentationGenerator.mk []) (fun _ _ => apology_response) 20 0
        (initial_state "c") [] "").response = none ∧
    (handle_message (PresentationGenerator.mk []) (fun _ _ => apology_response) 20 0
        (initial_state "c") [] "").state = initial_state "c" ∧
    (handle_message (PresentationGenerator.mk []) (fun _ _ => apology_response) 20 0
        (initial_state "c") [] "").history =
      deque_append 20 [] (question_entry "" 0) ∧
    (question_entry "" 0).role = "user" ∧ (question_entry "" 0).type = "question" :=
  empty_message_noop (PresentationGenerator.mk []) (fun _ _ => apology_response) 20 0
    (initial_state "c") [] rfl rfl

/-- C2: interrupting a running presentation with a non-empty message sets
`paused_at_segment = max(0, current_segment - 1)`, stores that segment's exact
text as `interrupted_segment_text`, and sets `mode = RAG`,
`presentation_paused = true`, `paused_mid_segment = true`; all of this happens
before the question is dispatched to the Answer Provider, so the resulting
state is the same whatever the Answer Provider answers, and the returned
response is the Answer Provider's answer on the formatted history context. -/
theorem interrupt_sets_pause_state (gen : PresentationGenerator)
    (rag : String → String → BotResponse) (max_history now : Nat)
    (state : ConversationState) (history : List HistoryEntry) (text : String)
    (seg : PresentationSegment)
    (hm : state.mode = ConversationMode.PRESENTATION)
    (hp : state.presentation_paused = false)
    (ht : text ≠ "")
    (hseg : gen.get_segment (max 0 (state.current_segment - 1)) = some seg) :
    (handle_message gen rag max_history now state history text).state.paused_at_segment =
      some (max 0 (state.current_segment - 1)) ∧
    (handle_message gen rag max_history now state history text).state.interrupted_segment_text =
      some seg.text ∧
    (handle_message gen rag max_history now state history text).state.mode =
      ConversationMode.RAG ∧
    (handle_message gen rag max_history now state history text).state.presentation_paused =
      true ∧
    (handle_message gen rag max_history now state history text).state.paused_mid_segment =
      true ∧
    (handle_message gen rag max_history now state history text).response =
      some (rag text (get_formatted_context
        (deque_append max_history history (question_entry text now)) 10)) ∧
    (∀ rag2 : String → String → BotResponse,
      (handle_message gen rag2 max_history now state history text).state =
        (handle_message gen rag max_history now state history text).state) := by
  have hstate : ∀ r : String → String → BotResponse, (handle_message gen r max_history now state history text).state = { state with mode := ConversationMode.RAG, presentation_paused := true, paused_at_segment := some (max 0 (state.current_segment - 1)), paused_mid_segment := true, interrupted_segment_text := some seg.text } := by
    intro r
    unfold handle_message
    rw [if_pos ⟨hm, ht⟩]
    simp only [hseg]
  have hresp : (handle_message gen rag max_history now state history text).response = some (rag text (get_formatted_context (deque_append max_history history (question_entry text now)) 10)) := by
    unfold handle_message
    rw [if_pos ⟨hm, ht⟩]
  exact ⟨by rw [hstate rag], by rw [hstate rag], by rw [hstate rag], by rw [hstate rag],
    by rw [hstate rag], hresp, fun rag2 => by rw [hstate rag2, hstate rag]⟩

/-- C2 witness: interrupting a fresh session of a two-segment store. -/
theorem interrupt_sets_pause_state_witness :
    (handle_message two_seg_gen const_rag 20 5 (initial_state "c") [] "why?").state.paused_at_segment =
      some (max 0 ((initial_state "c").current_segment - 1)) ∧
    (handle_message two_seg_gen const_rag 20 5 (initial_state "c") [] "why?").state.interrupted_segment_text =
      some "seg zero" := by
  have h := interrupt_sets_pause_state two_seg_gen const_rag 20 5 (initial_state "c") [] "why?"
    seg_zero rfl rfl (by decide) (by rfl)
  exact ⟨h.1, h.2.1⟩

/-- C3 counterexample: the claim says the finalize branch clears all pause
fields including `pausedMidSegment`, but on a state paused mid-segment at the
last segment the scheduled resume leaves `paused_mid_segment = true`. -/
theorem resume_finalize_keeps_mid_segment_flag :
    (resume_after_delay two_seg_gen paused_at_last).paused_mid_segment = true := by
  rfl

/-- C3 (amended): when the scheduled resume fires on a paused state with
`paused_at_segment` set: if `paused_at_segment >= total_segments - 1` the
session finalizes to RAG with `presentation_paused`, `paused_at_segment` and
`interrupted_segment_text` cleared — but `paused_mid_segment` keeps its old
value — and the session never re-enters PRESENTATION (a later scheduled resume
is a no-op and message handling keeps the mode at RAG); otherwise the cursor is
set back to `paused_at_segment` (the interrupted segment is replayed, not the
next one), the mode becomes PRESENTATION, and `presentation_paused`,
`paused_at_segment`, `interrupted_segment_text` and `paused_mid_segment` are
all cleared. -/
theorem scheduled_resume_spec (gen : PresentationGenerator)
    (rag : String → String → BotResponse) (max_history now : Nat)
    (state : ConversationState) (paused_at : Nat)
    (hp : state.presentation_paused = true)
    (hpas : state.paused_at_segment = some paused_at) :
    (paused_at ≥ gen.get_total_segments - 1 →
      (resume_after_delay gen state).mode = ConversationMode.RAG ∧
      (resume_after_delay gen state).presentation_paused = false ∧
      (resume_after_delay gen state).paused_at_segment = none ∧
      (resume_after_delay gen state).interrupted_segment_text = none ∧
      (resume_after_delay gen state).paused_mid_segment = state.paused_mid_segment ∧
      (resume_after_delay gen state).current_segment = state.current_segment ∧
      resume_after_delay gen (resume_after_delay gen state) = resume_after_delay gen state ∧
      (∀ (text : String) (history : List HistoryEntry),
        (handle_message gen rag max_history now (resume_after_delay gen state)
          history text).state.mode = ConversationMode.RAG)) ∧
    (paused_at < gen.get_total_segments - 1 →
      (resume_after_delay gen state).current_segment = paused_at ∧
      (resume_after_delay gen state).mode = ConversationMode.PRESENTATION ∧
      (resume_after_delay gen state).presentation_paused = false ∧
      (resume_after_delay gen state).paused_at_segment = none ∧
      (resume_after_delay gen state).interrupted_segment_text = none ∧
      (resume_after_delay gen state).paused_mid_segment = false) := by
  constructor
  · intro hlast
    have hres : resume_after_delay gen state = { state with mode := ConversationMode.RAG, presentation_paused := false, paused_at_segment := none, interrupted_segment_text := none } := by
      unfold resume_after_delay
      rw [hpas]
      simp only [hp, if_true]
      rw [if_pos hlast]
    refine ⟨by rw [hres], by rw [hres], by rw [hres], by rw [hres], by rw [hres],
      by rw [hres], ?_, ?_⟩
    · rw [hres]
      unfold resume_after_delay
      rfl
    · intro text history
      rw [hres]
      unfold handle_message
      rw [if_neg (by simp), if_pos rfl]
  · intro hmore
    have hres : resume_after_delay gen state = { state with current_segment := paused_at, mode := ConversationMode.PRESENTATION, presentation_paused := false, paused_at_segment := none, interrupted_segment_text := none, paused_mid_segment := false } := by
      unfold resume_after_delay
      rw [hpas]
      simp only [hp, if_true]
      rw [if_neg (by omega)]
    exact ⟨by rw [hres], by rw [hres], by rw [hres], by rw [hres], by rw [hres], by rw [hres]⟩

/-- C3 witness: both branches evaluated on the two-segment store — finalize
when the last segment was interrupted, replay when the first one was. -/
theorem scheduled_resume_spec_witness :
    (resume_after_delay two_seg_gen paused_at_last).mode = ConversationMode.RAG ∧
    (resume_after_delay two_seg_gen paused_at_first).current_segment = 0 := by
  constructor
  · exact ((scheduled_resume_spec two_seg_gen const_rag 20 0 paused_at_last 1
      rfl rfl).1 (by decide)).1
  · exact ((scheduled_resume_spec two_seg_gen const_rag 20 0 paused_at_first 0
      rfl rfl).2 (by decide)).1

/-- Cancelling the registered task empties the live set whenever every live
task is the registered one and there is at most one of them. -/
theorem cancel_registered_clears (r : TaskRegistry)
    (hcov : ∀ t ∈ r.live, r.registered = some t) (hlen : r.live.length ≤ 1) :
    (cancel_registered r).live = [] := by
  unfold cancel_registered
  cases hr : r.registered with
  | none =>
      cases hl : r.live with
      | nil => rfl
      | cons t0 ts =>
          have h0 : r.registered = some t0 := hcov t0 (by rw [hl]; exact List.mem_cons_self t0 ts)
          rw [hr] at h0
          exact absurd h0 (by simp)
  | some t =>
      cases hl : r.live with
      | nil => simp [hl]
      | cons t0 ts =>
          have hts : ts = [] := by
            rw [hl, List.length_cons] at hlen
            have h0 : ts.length = 0 := by omega
            exact List.length_eq_zero.mp h0
          subst hts
          have h0 : r.registered = some t0 := hcov t0 (by rw [hl]; exact List.mem_cons_self t0 [])
          rw [hr] at h0
          have ht : t = t0 := Option.some_injective _ h0
          subst ht
          simp [hl]

/-- C5 counterexample: with one live, registered driver task, a
`segment_complete` command spawns a second driver task without cancelling the
first, so two cursor-advancing driver tasks are live at once. -/
theorem segment_complete_spawns_second_task :
    (handle_command_tasks two_seg_gen (initial_state "c") true "segment_complete"
        (TaskRegistry.mk (some 0) [0]) 1).live = [1, 0] := by
  rfl

/-- C5 (amended): `restart_presentation_streaming`, `pause_presentation` and
`next_slide` cancel the registered (not yet done) driver task before any new
task is spawned, so from a single-task registry they leave at most one live
task; but `segment_complete` and a non-mid-segment `resume_presentation` spawn
a new driver task without cancelling the existing one, growing the live task
count by one, so two driver tasks can be in flight for the same session. -/
theorem driver_task_discipline (gen : PresentationGenerator) (state : ConversationState)
    (w : WebSession) (fresh : Nat)
    (hcov : ∀ t ∈ w.tasks.live, w.tasks.registered = some t)
    (hlen : w.tasks.live.length ≤ 1) :
    ((restart_presentation_streaming gen state w fresh).web.tasks.live.length ≤ 1) ∧
    ((handle_command_tasks gen state true "pause_presentation" w.tasks fresh).live.length ≤ 1) ∧
    ((handle_command_tasks gen state true "next_slide" w.tasks fresh).live.length ≤ 1) ∧
    ((handle_command_tasks gen state true "segment_complete" w.tasks fresh).live.length =
      w.tasks.live.length + 1) ∧
    (state.paused_mid_segment = false →
      (handle_command_tasks gen state true "resume_presentation" w.tasks fresh).live.length =
        w.tasks.live.length + 1) := by
  have hclear := cancel_registered_clears w.tasks hcov hlen
  refine ⟨?_, ?_, ?_, ?_, ?_⟩
  · unfold restart_presentation_streaming
    by_cases hc : w.connected
    · rw [if_pos hc]
      match state.interrupted_segment_text with
      | some captured =>
          match gen.get_segment state.current_segment with
          | some segment => simp [hclear]
          | none => simp [hclear]
      | none => simp [spawn_task, hclear]
    · rw [if_neg hc]
      exact hlen
  · unfold handle_command_tasks
    simp [hclear]
  · unfold handle_command_tasks
    rw [if_neg (by decide), if_neg (by decide), if_neg (by decide), if_pos rfl]
    by_cases hend : state.current_segment ≥ gen.get_total_segments
    · rw [if_pos hend, hclear]
      simp
    · rw [if_neg hend, if_pos rfl]
      simp [spawn_task, hclear]
  · unfold handle_command_tasks
    rw [if_neg (by decide), if_neg (by decide), if_pos rfl, if_pos rfl]
    simp [spawn_task]
  · intro hmid
    unfold handle_command_tasks
    rw [if_neg (by decide), if_pos rfl, if_neg (by simp [hmid]), if_pos rfl]
    simp [spawn_task]

/-- C5 witness: the discipline evaluated on a registry holding one live task. -/
theorem driver_task_discipline_witness :
    ((restart_presentation_streaming two_seg_gen (initial_state "c")
        (WebSession.mk true (TaskRegistry.mk (some 0) [0])) 1).web.tasks.live.length ≤ 1) ∧
    ((handle_command_tasks two_seg_gen (initial_state "c") true "segment_complete"
        (TaskRegistry.mk (some 0) [0]) 1).live.length =
      (TaskRegistry.mk (some 0) [0]).live.length + 1) := by
  have h := driver_task_discipline two_seg_gen (initial_state "c")
    (WebSession.mk true (TaskRegistry.mk (some 0) [0])) 1
    (by intro t ht; simp at ht; simp [ht]) (by decide)
  exact ⟨h.1, h.2.2.2.1⟩

/-- C7 counterexample: when only the LLM call fails, `answer_question` returns
the context fallback answer that keeps the retrieved sources — a non-empty
sources list, although the claim requires an empty sources list for every
internal failure (the apology always carries `sources = some []`). -/
theorem llm_failure_keeps_sources :
    (answer_question llm_down_oracles "q" "").toOption.map BotResponse.sources =
      some (some ["doc.pdf - Page 3"]) ∧
    some ["doc.pdf - Page 3"] ≠ some ([] : List String) ∧
    apology_response.sources = some [] := by
  refine ⟨by rfl, by simp, by rfl⟩

/-- C7 (amended): `answer_question` never propagates a raw exception — it
returns a response for every oracle behaviour — and a failure of the retrieval
step yields the apologetic answer with an empty sources list; but a failure of
only the LLM call yields a fallback answer built from the retrieved context
that keeps the retrieved (possibly non-empty) sources. -/
theorem answer_question_total (o : RagOracles) (question conversation_context : String) :
    (∃ r, answer_question o question conversation_context = Except.ok r) ∧
    (∀ e, o.search question = Except.error e →
      answer_question o question conversation_context = Except.ok apology_response) := by
  constructor
  · rcases hsearch : o.search question with e | related_pages
    · exact ⟨apology_response, by unfold answer_question; rw [hsearch]⟩
    · cases related_pages with
      | nil => exact ⟨no_info_response, by unfold answer_question; rw [hsearch]; rfl⟩
      | cons p ps => exact ⟨_, by unfold answer_question; rw [hsearch]; rfl⟩
  · intro e he
    unfold answer_question
    rw [he]

/-- C7 witness: an oracle whose vector search raises produces the apology. -/
theorem answer_question_total_witness :
    answer_question (RagOracles.mk (fun _ => Except.error "vector store down")
        (fun _ => Except.error "io") (fun _ => Except.error "api")) "q" "" =
      Except.ok apology_response ∧
    (∃ r, answer_question (RagOracles.mk (fun _ => Except.error "vector store down")
        (fun _ => Except.error "io") (fun _ => Except.error "api")) "q" "" = Except.ok r) := by
  have h := answer_question_total (RagOracles.mk (fun _ => Except.error "vector store down")
    (fun _ => Except.error "io") (fun _ => Except.error "api")) "q" ""
  exact ⟨h.2 "vector store down" rfl, h.1⟩

/-- C1: the controller's `_resume_presentation_after_delay` clears
`interrupted_segment_text` (line 215) before invoking the restart callback
(line 220), so `restart_presentation_streaming` — the registered callback —
finds no captured text, its `presentation_resume` branch cannot fire, and the
freshly spawned driver re-emits the interrupted segment as a plain
`presentation` envelope instead.  Had the captured text still been present at
callback time, the callback would have emitted the `presentation_resume`
envelope with exactly that text, as the claim describes. -/
theorem resume_drops_captured_text :
    (resume_after_delay two_seg_gen paused_at_first).interrupted_segment_text = none ∧
    (restart_presentation_streaming two_seg_gen (resume_after_delay two_seg_gen paused_at_first)
        (WebSession.mk true (TaskRegistry.mk none [])) 0).emitted = none ∧
    (get_next_segment two_seg_gen 20 9
        (restart_presentation_streaming two_seg_gen
          (resume_after_delay two_seg_gen paused_at_first)
          (WebSession.mk true (TaskRegistry.mk none [])) 0).state []).response =
      some (BotResponse.mk "presentation" "seg zero" [] (some 0) none) ∧
    (restart_presentation_streaming two_seg_gen
        { resume_after_delay two_seg_gen paused_at_first with
          interrupted_segment_text := some "seg zero" }
        (WebSession.mk true (TaskRegistry.mk none [])) 0).emitted =
      some (BotResponse.mk "presentation_resume" "seg zero" [] (some 0) none) := by
  refine ⟨rfl, rfl, rfl, rfl⟩

/-- C4: on a fresh session against a store whose segment ids were assigned by
the construction loop (id = position), successive driver fetches return
segment ids 0, 1, ..., total-1 strictly in order; the fetch once the store is
exhausted flips the mode to RAG and emits the one-time closing message; and
every fetch after that returns nothing, with the state parked forever. -/
theorem driver_fetch_monotone_then_closes (gen : PresentationGenerator)
    (max_history now : Nat) (cid : String) (h0 : List HistoryEntry)
    (hids : ∀ (i : Nat) (seg : PresentationSegment), gen.get_segment i = some seg → seg.id = i) :
    (∀ k, k < gen.get_total_segments →
      (get_next_segment gen max_history now
          (fetch_iter gen max_history now k (initial_state cid) h0).1
          (fetch_iter gen max_history now k (initial_state cid) h0).2).response.map
        BotResponse.segment_id = some (some k) ∧
      (get_next_segment gen max_history now
          (fetch_iter gen max_history now k (initial_state cid) h0).1
          (fetch_iter gen max_history now k (initial_state cid) h0).2).response.map
        BotResponse.type = some "presentation") ∧
    ((get_next_segment gen max_history now
        (fetch_iter gen max_history now gen.get_total_segments (initial_state cid) h0).1
        (fetch_iter gen max_history now gen.get_total_segments (initial_state cid) h0).2).response =
      some (BotResponse.mk "presentation" conclusion_text [] none none) ∧
      (fetch_iter gen max_history now (gen.get_total_segments + 1) (initial_state cid) h0).1 =
        exhausted_state cid gen.get_total_segments) ∧
    (∀ j, (get_next_segment gen max_history now
        (fetch_iter gen max_history now (gen.get_total_segments + 1 + j) (initial_state cid) h0).1
        (fetch_iter gen max_history now (gen.get_total_segments + 1 + j) (initial_state cid) h0).2).response
        = none ∧
      (fetch_iter gen max_history now (gen.get_total_segments + 1 + j) (initial_state cid) h0).1 =
        exhausted_state cid gen.get_total_segments) := by
  refine ⟨?_, ⟨?_, ?_⟩, ?_⟩
  · intro k hk
    have hk' : k < gen.segments.length := hk
    rw [fetch_iter_cursor gen max_history now cid k h0 (Nat.le_of_lt hk)]
    rw [get_next_segment_step gen max_history now (init_cursor cid k)
      (fetch_iter gen max_history now k (initial_state cid) h0).2
      (gen.segments.get ⟨k, hk'⟩) rfl rfl (get_segment_of_lt gen k hk')]
    have hid : (gen.segments.get ⟨k, hk'⟩).id = k :=
      hids k (gen.segments.get ⟨k, hk'⟩) (get_segment_of_lt gen k hk')
    exact ⟨by simpa using hid, by simp⟩
  · rw [fetch_iter_cursor gen max_history now cid gen.get_total_segments h0 (Nat.le_refl _)]
    rw [get_next_segment_exhausted gen max_history now (init_cursor cid gen.get_total_segments)
      (fetch_iter gen max_history now gen.get_total_segments (initial_state cid) h0).2 rfl rfl
      (get_segment_of_ge gen gen.get_total_segments (by
        simp [PresentationGenerator.get_total_segments]))]
  · simpa using fetch_iter_exhausted gen max_history now cid 0 h0
  · intro j
    constructor
    · rw [fetch_iter_exhausted gen max_history now cid j h0]
      unfold get_next_segment
      rw [if_pos (Or.inl (by simp [exhausted_state, initial_state]))]
    · exact fetch_iter_exhausted gen max_history now cid j h0

/-- C4 witness: the two-segment store — first fetch returns id 0, the fetch
after the closing message returns nothing. -/
theorem driver_fetch_monotone_then_closes_witness :
    (get_next_segment two_seg_gen 20 0
        (fetch_iter two_seg_gen 20 0 0 (initial_state "c") []).1
        (fetch_iter two_seg_gen 20 0 0 (initial_state "c") []).2).response.map
      BotResponse.segment_id = some (some 0) ∧
    (get_next_segment two_seg_gen 20 0
        (fetch_iter two_seg_gen 20 0 (two_seg_gen.get_total_segments + 1 + 0)
          (initial_state "c") []).1
        (fetch_iter two_seg_gen 20 0 (two_seg_gen.get_total_segments + 1 + 0)
          (initial_state "c") []).2).response = none := by
  have h := driver_fetch_monotone_then_closes two_seg_gen 20 0 "c" []
    (fun i seg hs => build_segments_id _ i seg hs)
  exact ⟨(h.1 0 (by decide)).1, (h.2.2 0).1⟩

theorem pySliceFrom_eq_drop (i : Int) (l : List α) : ∃ n, pySliceFrom i l = l.drop n := by
  unfold pySliceFrom
  split
  · exact ⟨_, rfl⟩
  · exact ⟨_, rfl⟩

theorem ts_le_trans : ∀ (a c d : HistoryEntry),
    ts_le a c = true → ts_le c d = true → ts_le a d = true := by
  intro a c d h1 h2
  simp only [ts_le, decide_eq_true_eq] at h1 h2 ⊢
  omega

theorem ts_le_total : ∀ (a c : HistoryEntry), (ts_le a c || ts_le c a) = true := by
  intro a c
  simp only [ts_le, Bool.or_eq_true, decide_eq_true_eq]
  omega

/-- The else branch of `get_context` written out (the `let` chain unfolded). -/
theorem get_context_else (messages : List HistoryEntry) (b : Nat)
    (h : ¬ messages.length ≤ b) :
    get_context messages b = pySliceFrom (-(b : Int)) ((pySliceFrom (Int.fdiv (-(b : Int)) 2) ((pySliceFrom (-(b * 2 : Int)) messages).filter is_important) ++ pySliceFrom (-((b / 2 : Nat) : Int)) ((pySliceFrom (-(b * 2 : Int)) messages).filter (fun m => !(is_important m)))).mergeSort ts_le) := by
  unfold get_context
  rw [if_neg h]

/-- C9 (amended): for every stored history and budget `b ≥ 1`, `get_context`
returns at most `b` entries; the result is chronologically ordered whenever the
stored history is; when the stored count is within the budget the whole history
is returned unchanged; and under truncation (budget ≥ 2) every entry of the
reserved important share — the last `⌈b/2⌉` entries of type question/rag_answer
in the recent window — appears in the result.  (At `b = 0` the Python `[-0:]`
slices return the entire history, which is why `b ≥ 1` is required.) -/
theorem get_context_spec (messages : List HistoryEntry) (b : Nat) :
    (1 ≤ b → (get_context messages b).length ≤ b) ∧
    (chronological messages → chronological (get_context messages b)) ∧
    (messages.length ≤ b → get_context messages b = messages) ∧
    (2 ≤ b → b < messages.length →
      ∀ e, e ∈ pySliceFrom (Int.fdiv (-(b : Int)) 2)
          ((pySliceFrom (-(b * 2 : Int)) messages).filter is_important) →
        e ∈ get_context messages b) := by
  refine ⟨?_, ?_, ?_, ?_⟩
  · intro hb
    by_cases hlen : messages.length ≤ b
    · unfold get_context
      rw [if_pos hlen]
      exact hlen
    · rw [get_context_else messages b hlen]
      exact pySliceFrom_neg_length b hb _
  · intro hchron
    by_cases hlen : messages.length ≤ b
    · unfold get_context
      rw [if_pos hlen]
      exact hchron
    · rw [get_context_else messages b hlen]
      obtain ⟨n, hn⟩ := pySliceFrom_eq_drop (-(b : Int))
        ((pySliceFrom (Int.fdiv (-(b : Int)) 2) ((pySliceFrom (-(b * 2 : Int)) messages).filter is_important) ++ pySliceFrom (-((b / 2 : Nat) : Int)) ((pySliceFrom (-(b * 2 : Int)) messages).filter (fun m => !(is_important m)))).mergeSort ts_le)
      rw [hn]
      exact List.Pairwise.sublist (List.drop_sublist n _)
        ((List.sorted_mergeSort ts_le_trans ts_le_total _).imp
          (fun hab => by simpa [ts_le] using hab))
  · intro hlen
    unfold get_context
    rw [if_pos hlen]
  · intro hb2 hlen e he
    rw [get_context_else messages b (by omega)]
    have himp : (pySliceFrom (Int.fdiv (-(b : Int)) 2)
        ((pySliceFrom (-(b * 2 : Int)) messages).filter is_important)).length ≤ (b + 1) / 2 := by
      rw [neg_fdiv_two b]
      exact pySliceFrom_neg_length _ (by omega) _
    have hreg : (pySliceFrom (-((b / 2 : Nat) : Int))
        ((pySliceFrom (-(b * 2 : Int)) messages).filter (fun m => !(is_important m)))).length ≤
        b / 2 :=
      pySliceFrom_neg_length _ (by omega) _
    have hms : ((pySliceFrom (Int.fdiv (-(b : Int)) 2) ((pySliceFrom (-(b * 2 : Int)) messages).filter is_important) ++ pySliceFrom (-((b / 2 : Nat) : Int)) ((pySliceFrom (-(b * 2 : Int)) messages).filter (fun m => !(is_important m)))).mergeSort ts_le).length ≤ b := by
      rw [(List.mergeSort_perm _ _).length_eq, List.length_append]
      omega
    rw [pySliceFrom_neg_all b (by omega) _ hms]
    exact ((List.mergeSort_perm _ _).mem_iff).mpr (List.mem_append_left _ he)

/-- C9 witness: a three-entry history truncated to budget 2 stays within the
budget, and a one-entry history fits a budget of 5 and is returned whole. -/
theorem get_context_spec_witness :
    (get_context [plain_entry, plain_entry, plain_entry] 2).length ≤ 2 ∧
    get_context [plain_entry] 5 = [plain_entry] := by
  exact ⟨(get_context_spec [plain_entry, plain_entry, plain_entry] 2).1 (by omega),
    (get_context_spec [plain_entry] 5).2.2.1 (by simp)⟩

/-- C9 counterexample: at budget 0 the Python slices `[-0:]` return the whole
list, so `get_context` on a one-entry history returns one entry, exceeding the
budget of 0. -/
theorem get_context_budget_zero_overflows :
    (get_context [plain_entry] 0).length = 1 := by
  rw [get_context_else [plain_entry] 0 (by simp)]
  simp [pySliceFrom, plain_entry, is_important]

end AutoPdf
